import Mathlib

/-!
Verification of the athlete-registration server (`src/server.ts`).

The server is an Express app over a single SQLite table `athletes`
(better-sqlite3).  We embed its observable behaviour shallowly:

* A JSON value arriving in a request body is a `JVal`; a field read
  `data.x` on the parsed body yields `Option JVal` (`none` models
  JavaScript `undefined`, i.e. the property is absent).
* A value stored in a SQLite column is a `SqlVal`.  better-sqlite3 can
  bind only numbers, strings, bigints, buffers and null; binding any
  other value (including `undefined` and booleans) throws a `TypeError`
  whose message does not depend on which parameter was bad, so the order
  in which parameters are bound does not affect the observable outcome.
* Numeric JSON values are modelled with `Int`; no arithmetic is ever
  performed on them by the server, only storage and retrieval.  SQLite
  column-affinity conversions are not modelled; the validity hypotheses
  used below keep payload fields type-matched to their columns, where
  the conversion is the identity.
* The table has `id INTEGER PRIMARY KEY AUTOINCREMENT`: with
  AUTOINCREMENT SQLite keeps a high-water mark (`sqlite_sequence`) and a
  fresh row always receives an id one larger than the largest id ever
  assigned, modelled by the `seq` counter of `Store`.
* `created_at DATETIME DEFAULT CURRENT_TIMESTAMP` is modelled by an
  explicit `now : Nat` argument to the insert operation.
-/

/-- A JSON value as it appears in a parsed request body. -/
inductive JVal where
  | null : JVal
  | str : String → JVal
  | num : Int → JVal
  | bool : Bool → JVal
deriving DecidableEq

/-- A value stored in a SQLite column. -/
inductive SqlVal where
  | null : SqlVal
  | num : Int → SqlVal
  | text : String → SqlVal
deriving DecidableEq

/-- JavaScript truthiness of an optional JSON value, as used by
`data.termo_aceite ? 1 : 0` (with `none` = `undefined`, which is falsy). -/
def truthy : Option JVal → Bool
  | none => false
  | some JVal.null => false
  | some (JVal.str s) => !(s == "")
  | some (JVal.num n) => !(n == 0)
  | some (JVal.bool b) => b

/-- Whether better-sqlite3 accepts the value as a bind parameter
(`undefined` and booleans are rejected with a `TypeError`). -/
def bindable : Option JVal → Bool
  | none => false
  | some JVal.null => true
  | some (JVal.str _) => true
  | some (JVal.num _) => true
  | some (JVal.bool _) => false

/-- The SQLite value a bindable JSON value is bound as.  (The `none` /
boolean cases are unreachable behind a `bindable` guard; `.null` is a
dummy there.) -/
def boundOf : Option JVal → SqlVal
  | none => SqlVal.null
  | some JVal.null => SqlVal.null
  | some (JVal.str s) => SqlVal.text s
  | some (JVal.num n) => SqlVal.num n
  | some (JVal.bool _) => SqlVal.null

/-- The JSON value a stored SQLite value is serialised back as. -/
def jOf : SqlVal → JVal
  | SqlVal.null => JVal.null
  | SqlVal.num n => JVal.num n
  | SqlVal.text s => JVal.str s

/-- The request body of `POST /api/register`: the 29 properties the
handler reads off `req.body` (each possibly absent). -/
structure Payload where
  nome_completo : Option JVal
  cpf : Option JVal
  data_nascimento : Option JVal
  sexo : Option JVal
  whatsapp : Option JVal
  peso : Option JVal
  altura : Option JVal
  tam_kimono : Option JVal
  num_calcado : Option JVal
  foto_url : Option JVal
  lado_dominante : Option JVal
  graduacao_faixa : Option JVal
  numero_nis : Option JVal
  logradouro : Option JVal
  numero : Option JVal
  bairro : Option JVal
  cidade : Option JVal
  uf : Option JVal
  escola : Option JVal
  serie_ano : Option JVal
  turno_estudo : Option JVal
  restricao_medica : Option JVal
  possui_alergias : Option JVal
  tipo_sanguineo : Option JVal
  contato_emergencia_nome : Option JVal
  contato_emergencia_tel : Option JVal
  responsavel_legal : Option JVal
  responsavel_cpf : Option JVal
  termo_aceite : Option JVal
deriving DecidableEq

/-- The 28 data columns of a stored row other than `termo_aceite`
(which the handler computes itself) and the server-assigned columns. -/
structure Cols where
  nome_completo : SqlVal
  cpf : SqlVal
  data_nascimento : SqlVal
  sexo : SqlVal
  whatsapp : SqlVal
  peso : SqlVal
  altura : SqlVal
  tam_kimono : SqlVal
  num_calcado : SqlVal
  foto_url : SqlVal
  lado_dominante : SqlVal
  graduacao_faixa : SqlVal
  numero_nis : SqlVal
  logradouro : SqlVal
  numero : SqlVal
  bairro : SqlVal
  cidade : SqlVal
  uf : SqlVal
  escola : SqlVal
  serie_ano : SqlVal
  turno_estudo : SqlVal
  restricao_medica : SqlVal
  possui_alergias : SqlVal
  tipo_sanguineo : SqlVal
  contato_emergencia_nome : SqlVal
  contato_emergencia_tel : SqlVal
  responsavel_legal : SqlVal
  responsavel_cpf : SqlVal
deriving DecidableEq

/-- A row of the `athletes` table. -/
structure Row where
  id : Nat
  cols : Cols
  termo_aceite : Nat
  created_at : Nat
deriving DecidableEq

/-- The database state: the rows of `athletes` in insertion order plus
the AUTOINCREMENT high-water mark. -/
structure Store where
  rows : List Row
  seq : Nat
deriving DecidableEq

/-- The `TypeError` message better-sqlite3 raises for an unbindable
parameter (`undefined`, boolean, ...). -/
def bindErrMsg : String :=
  "SQLite3 can only bind numbers, strings, bigints, buffers, and null"

def notNullNomeMsg : String := "NOT NULL constraint failed: athletes.nome_completo"

def notNullCpfMsg : String := "NOT NULL constraint failed: athletes.cpf"

def uniqueCpfMsg : String := "UNIQUE constraint failed: athletes.cpf"

/-- All 28 positional parameters other than the consent flag are
bindable values. -/
def allBindable (p : Payload) : Bool :=
  bindable p.nome_completo && bindable p.cpf && bindable p.data_nascimento &&
  bindable p.sexo && bindable p.whatsapp && bindable p.peso && bindable p.altura &&
  bindable p.tam_kimono && bindable p.num_calcado && bindable p.foto_url &&
  bindable p.lado_dominante && bindable p.graduacao_faixa && bindable p.numero_nis &&
  bindable p.logradouro && bindable p.numero && bindable p.bairro &&
  bindable p.cidade && bindable p.uf && bindable p.escola && bindable p.serie_ano &&
  bindable p.turno_estudo && bindable p.restricao_medica && bindable p.possui_alergias &&
  bindable p.tipo_sanguineo && bindable p.contato_emergencia_nome &&
  bindable p.contato_emergencia_tel && bindable p.responsavel_legal &&
  bindable p.responsavel_cpf

/-- The column values the 28 data parameters are bound as. -/
def colsOf (p : Payload) : Cols where
  nome_completo := boundOf p.nome_completo
  cpf := boundOf p.cpf
  data_nascimento := boundOf p.data_nascimento
  sexo := boundOf p.sexo
  whatsapp := boundOf p.whatsapp
  peso := boundOf p.peso
  altura := boundOf p.altura
  tam_kimono := boundOf p.tam_kimono
  num_calcado := boundOf p.num_calcado
  foto_url := boundOf p.foto_url
  lado_dominante := boundOf p.lado_dominante
  graduacao_faixa := boundOf p.graduacao_faixa
  numero_nis := boundOf p.numero_nis
  logradouro := boundOf p.logradouro
  numero := boundOf p.numero
  bairro := boundOf p.bairro
  cidade := boundOf p.cidade
  uf := boundOf p.uf
  escola := boundOf p.escola
  serie_ano := boundOf p.serie_ano
  turno_estudo := boundOf p.turno_estudo
  restricao_medica := boundOf p.restricao_medica
  possui_alergias := boundOf p.possui_alergias
  tipo_sanguineo := boundOf p.tipo_sanguineo
  contato_emergencia_nome := boundOf p.contato_emergencia_nome
  contato_emergencia_tel := boundOf p.contato_emergencia_tel
  responsavel_legal := boundOf p.responsavel_legal
  responsavel_cpf := boundOf p.responsavel_cpf

/-- Binding the 28 data parameters of the prepared INSERT: every
parameter must be a bindable value, otherwise better-sqlite3 throws the
one `TypeError` before the statement executes. -/
def bindCols (p : Payload) : Except String Cols :=
  if allBindable p then Except.ok (colsOf p) else Except.error bindErrMsg

/-- `data.termo_aceite ? 1 : 0` — the value bound for the consent
column. -/
def termoStored (p : Payload) : Nat :=
  if truthy p.termo_aceite then 1 else 0

/-- `stmt.run(...)` of the INSERT: bind all parameters, then execute —
SQLite enforces the NOT NULL constraints on `nome_completo` and `cpf`
and the UNIQUE constraint on `cpf`, then appends the row with the next
AUTOINCREMENT id and `created_at` defaulted to the current time.
Returns the new state and `lastInsertRowid`, or the raised message. -/
def runInsert (s : Store) (p : Payload) (now : Nat) : Except String (Store × Nat) :=
  match bindCols p with
  | Except.error e => Except.error e
  | Except.ok c =>
    if c.nome_completo = SqlVal.null then Except.error notNullNomeMsg
    else if c.cpf = SqlVal.null then Except.error notNullCpfMsg
    else if s.rows.any (fun r => decide (r.cols.cpf = c.cpf)) then Except.error uniqueCpfMsg
    else
      let id := s.seq + 1
      Except.ok ({ rows := s.rows ++ [{ id := id, cols := c,
                                        termo_aceite := termoStored p,
                                        created_at := now }],
                   seq := id }, id)

/-- The JSON body (plus HTTP status) answered by `POST /api/register`
and its `catch` branch. -/
structure RegisterResponse where
  status : Nat
  success : Bool
  id : Option Nat
  error : Option String
deriving DecidableEq

/-- The `try`/`catch` of the register handler: on success
`res.json({success:true, id: result.lastInsertRowid})` (status 200), on
a raised error `res.status(500).json({success:false, error: error.message})`. -/
def registerHandler (s : Store) (outcome : Except String (Store × Nat)) :
    Store × RegisterResponse :=
  match outcome with
  | Except.ok (s', id) => (s', { status := 200, success := true, id := some id, error := none })
  | Except.error msg => (s, { status := 500, success := false, id := none, error := some msg })

/-- `POST /api/register`. -/
def register (s : Store) (p : Payload) (now : Nat) : Store × RegisterResponse :=
  registerHandler s (runInsert s p now)

/-- The ordering used by `ORDER BY created_at DESC`. -/
def createdDesc (a b : Row) : Prop := b.created_at ≤ a.created_at

instance : DecidableRel createdDesc := fun a b =>
  inferInstanceAs (Decidable (b.created_at ≤ a.created_at))

instance : IsTotal Row createdDesc :=
  ⟨fun a b => Nat.le_total b.created_at a.created_at⟩

instance : IsTrans Row createdDesc :=
  ⟨fun _ _ _ hab hbc => Nat.le_trans hbc hab⟩

/-- `SELECT * FROM athletes ORDER BY created_at DESC` — all rows,
sorted by `created_at` descending. -/
def listAthletes (s : Store) : List Row :=
  List.insertionSort createdDesc s.rows

/-- The body answered by `GET /api/athletes`: the raw array on success,
the error envelope with status 500 on a raised error. -/
inductive ListResponse where
  | rows : List Row → ListResponse
  | failure : Nat → Bool → String → ListResponse
deriving DecidableEq

/-- The `try`/`catch` of the list handler. -/
def listHandler (outcome : Except String (List Row)) : ListResponse :=
  match outcome with
  | Except.ok l => ListResponse.rows l
  | Except.error msg => ListResponse.failure 500 false msg

/-- `GET /api/athletes`. -/
def listEndpoint (s : Store) : ListResponse :=
  listHandler (Except.ok (listAthletes s))

/-- The JSON body (plus HTTP status) answered by `DELETE /api/athletes/:id`. -/
structure DeleteResponse where
  status : Nat
  success : Bool
  error : Option String
deriving DecidableEq

/-- `DELETE FROM athletes WHERE id = ?` — removes the rows whose id
matches, leaving every other row in place. -/
def deleteById (s : Store) (id : Nat) : Store :=
  { rows := s.rows.filter (fun r => r.id != id), seq := s.seq }

/-- The `try`/`catch` of the delete handler: `res.json({success:true})`
on success (whether or not a row was removed), the error envelope with
status 500 on a raised error. -/
def deleteHandler (s : Store) (outcome : Except String Store) :
    Store × DeleteResponse :=
  match outcome with
  | Except.ok s' => (s', { status := 200, success := true, error := none })
  | Except.error msg => (s, { status := 500, success := false, error := some msg })

/-- `DELETE /api/athletes/:id`. -/
def deleteEndpoint (s : Store) (id : Nat) : Store × DeleteResponse :=
  deleteHandler s (Except.ok (deleteById s id))

/-- One client-visible operation against the API. -/
inductive Op where
  | register : Payload → Nat → Op
  | deleteAthlete : Nat → Op
  | list : Op
deriving DecidableEq

/-- The state reached after one operation. -/
def applyOp (s : Store) : Op → Store
  | Op.register p now => (register s p now).1
  | Op.deleteAthlete id => (deleteEndpoint s id).1
  | Op.list => s

/-- The state reached after a sequence of operations. -/
def applyOps (s : Store) (ops : List Op) : Store :=
  ops.foldl applyOp s

/-- The ids handed out by one operation: a successful create hands out
`lastInsertRowid`, anything else hands out none. -/
def emitOf (s : Store) : Op → List Nat
  | Op.register p now =>
    match runInsert s p now with
    | Except.ok (_, id) => [id]
    | Except.error _ => []
  | Op.deleteAthlete _ => []
  | Op.list => []

/-- The ids handed out by the successful creates of an operation
sequence, in order. -/
def emittedIds (s : Store) : List Op → List Nat
  | [] => []
  | op :: rest => emitOf s op ++ emittedIds (applyOp s op) rest

/-- Well-formedness maintained by the store: every row id is at most the
AUTOINCREMENT high-water mark, and row ids are pairwise distinct. -/
def WF (s : Store) : Prop :=
  (∀ r ∈ s.rows, r.id ≤ s.seq) ∧ s.rows.Pairwise (fun a b => a.id ≠ b.id)

instance : DecidablePred WF := fun s => by
  unfold WF; infer_instance

/-- The field is a (non-null) string — the shape a required text column
expects. -/
def isText : Option JVal → Bool
  | some (JVal.str _) => true
  | _ => false

/-- The field is a string or null — the shape an optional text column
expects. -/
def isTextOrNull : Option JVal → Bool
  | some (JVal.str _) => true
  | some JVal.null => true
  | _ => false

/-- The field is a number or null — the shape an optional REAL column
expects. -/
def isRealOrNull : Option JVal → Bool
  | some (JVal.num _) => true
  | some JVal.null => true
  | _ => false

/-- The field is a boolean. -/
def isBoolVal : Option JVal → Bool
  | some (JVal.bool _) => true
  | _ => false

/-- A payload that is valid with respect to state `s`: every field is
present and type-matched to its column, the two required fields are
non-null strings, the consent flag is a boolean, and the national
identifier is fresh. -/
def ValidPayload (s : Store) (p : Payload) : Prop :=
  isText p.nome_completo = true ∧ isText p.cpf = true ∧
  isTextOrNull p.data_nascimento = true ∧ isTextOrNull p.sexo = true ∧
  isTextOrNull p.whatsapp = true ∧ isRealOrNull p.peso = true ∧
  isRealOrNull p.altura = true ∧ isTextOrNull p.tam_kimono = true ∧
  isTextOrNull p.num_calcado = true ∧ isTextOrNull p.foto_url = true ∧
  isTextOrNull p.lado_dominante = true ∧ isTextOrNull p.graduacao_faixa = true ∧
  isTextOrNull p.numero_nis = true ∧ isTextOrNull p.logradouro = true ∧
  isTextOrNull p.numero = true ∧ isTextOrNull p.bairro = true ∧
  isTextOrNull p.cidade = true ∧ isTextOrNull p.uf = true ∧
  isTextOrNull p.escola = true ∧ isTextOrNull p.serie_ano = true ∧
  isTextOrNull p.turno_estudo = true ∧ isTextOrNull p.restricao_medica = true ∧
  isTextOrNull p.possui_alergias = true ∧ isTextOrNull p.tipo_sanguineo = true ∧
  isTextOrNull p.contato_emergencia_nome = true ∧
  isTextOrNull p.contato_emergencia_tel = true ∧
  isTextOrNull p.responsavel_legal = true ∧ isTextOrNull p.responsavel_cpf = true ∧
  isBoolVal p.termo_aceite = true ∧
  ∀ r ∈ s.rows, r.cols.cpf ≠ boundOf p.cpf

instance (s : Store) : DecidablePred (ValidPayload s) := fun p => by
  unfold ValidPayload; infer_instance

lemma bindable_of_isText {f : Option JVal} (h : isText f = true) :
    bindable f = true := by
  match f, h with
  | some (JVal.str _), _ => rfl

lemma bindable_of_isTextOrNull {f : Option JVal} (h : isTextOrNull f = true) :
    bindable f = true := by
  match f, h with
  | some (JVal.str _), _ => rfl
  | some JVal.null, _ => rfl

lemma bindable_of_isRealOrNull {f : Option JVal} (h : isRealOrNull f = true) :
    bindable f = true := by
  match f, h with
  | some (JVal.num _), _ => rfl
  | some JVal.null, _ => rfl

lemma roundtrip_of_isText {f : Option JVal} (h : isText f = true) :
    f = some (jOf (boundOf f)) := by
  match f, h with
  | some (JVal.str _), _ => rfl

lemma roundtrip_of_isTextOrNull {f : Option JVal} (h : isTextOrNull f = true) :
    f = some (jOf (boundOf f)) := by
  match f, h with
  | some (JVal.str _), _ => rfl
  | some JVal.null, _ => rfl

lemma roundtrip_of_isRealOrNull {f : Option JVal} (h : isRealOrNull f = true) :
    f = some (jOf (boundOf f)) := by
  match f, h with
  | some (JVal.num _), _ => rfl
  | some JVal.null, _ => rfl

lemma boundOf_ne_null_of_isText {f : Option JVal} (h : isText f = true) :
    boundOf f ≠ SqlVal.null := by
  match f, h with
  | some (JVal.str _), _ => simp [boundOf]

/-- A raised store error is answered by the 500 envelope carrying the
message, with the state unchanged. -/
lemma register_of_error {s : Store} {p : Payload} {now : Nat} {m : String}
    (h : runInsert s p now = Except.error m) :
    register s p now = (s, { status := 500, success := false, id := none, error := some m }) := by
  simp [register, registerHandler, h]

/-- If some parameter is unbindable the INSERT raises the bind error. -/
lemma runInsert_of_bindFail {s : Store} {p : Payload} {now : Nat}
    (h : allBindable p = false) :
    runInsert s p now = Except.error bindErrMsg := by
  unfold runInsert bindCols
  rw [h]
  rfl

/-- The row a successful insert appends. -/
def newRowOf (s : Store) (p : Payload) (now : Nat) : Row :=
  { id := s.seq + 1, cols := colsOf p, termo_aceite := termoStored p, created_at := now }

lemma allBindable_of_valid {s : Store} {p : Payload} (hv : ValidPayload s p) :
    allBindable p = true := by
  obtain ⟨h1, h2, h3, h4, h5, h6, h7, h8, h9, h10, h11, h12, h13, h14, h15, h16,
    h17, h18, h19, h20, h21, h22, h23, h24, h25, h26, h27, h28, _, _⟩ := hv
  simp [allBindable, bindable_of_isText h1, bindable_of_isText h2,
    bindable_of_isTextOrNull h3, bindable_of_isTextOrNull h4,
    bindable_of_isTextOrNull h5, bindable_of_isRealOrNull h6,
    bindable_of_isRealOrNull h7, bindable_of_isTextOrNull h8,
    bindable_of_isTextOrNull h9, bindable_of_isTextOrNull h10,
    bindable_of_isTextOrNull h11, bindable_of_isTextOrNull h12,
    bindable_of_isTextOrNull h13, bindable_of_isTextOrNull h14,
    bindable_of_isTextOrNull h15, bindable_of_isTextOrNull h16,
    bindable_of_isTextOrNull h17, bindable_of_isTextOrNull h18,
    bindable_of_isTextOrNull h19, bindable_of_isTextOrNull h20,
    bindable_of_isTextOrNull h21, bindable_of_isTextOrNull h22,
    bindable_of_isTextOrNull h23, bindable_of_isTextOrNull h24,
    bindable_of_isTextOrNull h25, bindable_of_isTextOrNull h26,
    bindable_of_isTextOrNull h27, bindable_of_isTextOrNull h28]

lemma runInsert_of_valid {s : Store} {p : Payload} {now : Nat}
    (hv : ValidPayload s p) :
    runInsert s p now =
      Except.ok ({ rows := s.rows ++ [newRowOf s p now], seq := s.seq + 1 }, s.seq + 1) := by
  have hb : allBindable p = true := allBindable_of_valid hv
  have h1 : isText p.nome_completo = true := hv.1
  have h2 : isText p.cpf = true := hv.2.1
  have hfresh : ∀ r ∈ s.rows, r.cols.cpf ≠ boundOf p.cpf := by
    exact hv.2.2.2.2.2.2.2.2.2.2.2.2.2.2.2.2.2.2.2.2.2.2.2.2.2.2.2.2.2
  have hnome : ¬((colsOf p).nome_completo = SqlVal.null) :=
    boundOf_ne_null_of_isText h1
  have hcpf : ¬((colsOf p).cpf = SqlVal.null) :=
    boundOf_ne_null_of_isText h2
  have hany : (s.rows.any fun r => decide (r.cols.cpf = (colsOf p).cpf)) = false := by
    simp only [List.any_eq_false, decide_eq_true_eq]
    exact fun r hr => hfresh r hr
  unfold runInsert bindCols
  rw [if_pos hb]
  show (if (colsOf p).nome_completo = SqlVal.null then Except.error notNullNomeMsg
    else if (colsOf p).cpf = SqlVal.null then Except.error notNullCpfMsg
    else if s.rows.any (fun r => decide (r.cols.cpf = (colsOf p).cpf)) then Except.error uniqueCpfMsg
    else Except.ok (({ rows := s.rows ++ [{ id := s.seq + 1, cols := colsOf p,
                                            termo_aceite := termoStored p,
                                            created_at := now }],
                       seq := s.seq + 1 } : Store), s.seq + 1)) = _
  rw [if_neg hnome, if_neg hcpf, hany]
  rfl

lemma bool_eq_false_of_ne_true {b : Bool} (h : ¬(b = true)) : b = false := by
  revert h; cases b <;> simp

/-- With all parameters bindable, the INSERT reduces to the constraint
checks followed by the row append. -/
lemma runInsert_eq_of_bind {s : Store} {p : Payload} {now : Nat}
    (hb : allBindable p = true) :
    runInsert s p now =
      if (colsOf p).nome_completo = SqlVal.null then Except.error notNullNomeMsg
      else if (colsOf p).cpf = SqlVal.null then Except.error notNullCpfMsg
      else if s.rows.any (fun r => decide (r.cols.cpf = (colsOf p).cpf)) then
        Except.error uniqueCpfMsg
      else Except.ok (({ rows := s.rows ++ [newRowOf s p now], seq := s.seq + 1 } : Store),
        s.seq + 1) := by
  unfold runInsert bindCols
  rw [if_pos hb]
  rfl

/-- The INSERT either raises or appends exactly the new row and bumps
the sequence. -/
lemma runInsert_shape (s : Store) (p : Payload) (now : Nat) :
    (∃ m, runInsert s p now = Except.error m) ∨
    runInsert s p now =
      Except.ok (({ rows := s.rows ++ [newRowOf s p now], seq := s.seq + 1 } : Store),
        s.seq + 1) := by
  by_cases hb : allBindable p = true
  · rw [runInsert_eq_of_bind hb]
    split_ifs
    · exact Or.inl ⟨_, rfl⟩
    · exact Or.inl ⟨_, rfl⟩
    · exact Or.inl ⟨_, rfl⟩
    · exact Or.inr rfl
  · exact Or.inl ⟨_, runInsert_of_bindFail (bool_eq_false_of_ne_true hb)⟩

lemma runInsert_ok_inv {s : Store} {p : Payload} {now : Nat} {s' : Store} {id : Nat}
    (h : runInsert s p now = Except.ok (s', id)) :
    s' = { rows := s.rows ++ [newRowOf s p now], seq := s.seq + 1 } ∧ id = s.seq + 1 := by
  rcases runInsert_shape s p now with ⟨m, hm⟩ | hok
  · rw [hm] at h; exact absurd h (by simp)
  · rw [hok] at h
    simp only [Except.ok.injEq, Prod.mk.injEq] at h
    exact ⟨h.1.symm, h.2.symm⟩

/-- A successful insert is answered by the success envelope carrying
the new id. -/
lemma register_of_ok {s : Store} {p : Payload} {now : Nat} {s' : Store} {id : Nat}
    (h : runInsert s p now = Except.ok (s', id)) :
    register s p now =
      (s', { status := 200, success := true, id := some id, error := none }) := by
  simp [register, registerHandler, h]

lemma exists_bool_of_isBoolVal {f : Option JVal} (h : isBoolVal f = true) :
    ∃ b, f = some (JVal.bool b) := by
  match f, h with
  | some (JVal.bool b), _ => exact ⟨b, rfl⟩

lemma applyOp_register_cases (s : Store) (p : Payload) (now : Nat) :
    applyOp s (Op.register p now) = s ∨
    applyOp s (Op.register p now) =
      { rows := s.rows ++ [newRowOf s p now], seq := s.seq + 1 } := by
  rcases runInsert_shape s p now with ⟨m, hm⟩ | hok
  · left; simp [applyOp, register_of_error hm]
  · right; simp [applyOp, register_of_ok hok]

lemma applyOp_delete (s : Store) (id : Nat) :
    applyOp s (Op.deleteAthlete id) = deleteById s id := rfl

lemma seq_le_applyOp (s : Store) (op : Op) : s.seq ≤ (applyOp s op).seq := by
  cases op with
  | register p now =>
    rcases applyOp_register_cases s p now with h | h <;> rw [h]
    · exact Nat.le_succ _
  | deleteAthlete id => exact Nat.le_refl _
  | list => exact Nat.le_refl _

/-- A row carrying an id not exceeding the old high-water mark survives
one operation only if it was already present: operations never modify a
row in place. -/
lemma mem_of_applyOp_mem {s : Store} {op : Op} {r' : Row}
    (h : r' ∈ (applyOp s op).rows) (hle : r'.id ≤ s.seq) : r' ∈ s.rows := by
  cases op with
  | register p now =>
    rcases applyOp_register_cases s p now with hc | hc <;> rw [hc] at h
    · exact h
    · rcases List.mem_append.mp h with h1 | h2
      · exact h1
      · exfalso
        have : r' = newRowOf s p now := List.mem_singleton.mp h2
        rw [this] at hle
        exact Nat.not_succ_le_self _ hle
  | deleteAthlete id => exact List.mem_of_mem_filter h
  | list => exact h

lemma applyOps_cons (s : Store) (op : Op) (ops : List Op) :
    applyOps s (op :: ops) = applyOps (applyOp s op) ops := rfl

lemma seq_le_applyOps (s : Store) (ops : List Op) : s.seq ≤ (applyOps s ops).seq := by
  induction ops generalizing s with
  | nil => exact Nat.le_refl _
  | cons op rest ih =>
    exact Nat.le_trans (seq_le_applyOp s op) (ih (applyOp s op))

lemma mem_of_applyOps_mem {s : Store} {ops : List Op} {r' : Row}
    (h : r' ∈ (applyOps s ops).rows) (hle : r'.id ≤ s.seq) : r' ∈ s.rows := by
  induction ops generalizing s with
  | nil => exact h
  | cons op rest ih =>
    have h1 : r' ∈ (applyOp s op).rows :=
      ih (by rw [← applyOps_cons]; exact h) (Nat.le_trans hle (seq_le_applyOp s op))
    exact mem_of_applyOp_mem h1 hle

/-- In a list of rows with pairwise distinct ids, a member is determined
by its id. -/
lemma eq_of_mem_of_id_eq {l : List Row}
    (hp : l.Pairwise (fun a b => a.id ≠ b.id)) {r r' : Row}
    (hr : r ∈ l) (hr' : r' ∈ l) (hid : r'.id = r.id) : r' = r := by
  have hnd : (l.map Row.id).Nodup := List.pairwise_map.mpr hp
  exact List.inj_on_of_nodup_map hnd hr' hr hid

lemma emitOf_eq_of_error {s : Store} {p : Payload} {now : Nat} {m : String}
    (hm : runInsert s p now = Except.error m) :
    emitOf s (Op.register p now) = [] := by
  show (match runInsert s p now with
    | Except.ok (_, id) => [id]
    | Except.error _ => []) = []
  rw [hm]

lemma emitOf_eq_of_ok {s : Store} {p : Payload} {now : Nat} {s' : Store} {id : Nat}
    (hok : runInsert s p now = Except.ok (s', id)) :
    emitOf s (Op.register p now) = [id] := by
  show (match runInsert s p now with
    | Except.ok (_, id) => [id]
    | Except.error _ => []) = [id]
  rw [hok]

lemma emitOf_delete (s : Store) (id : Nat) : emitOf s (Op.deleteAthlete id) = [] := rfl

lemma emitOf_list (s : Store) : emitOf s Op.list = [] := rfl

/-- Every id handed out during a run exceeds the high-water mark the
run started from. -/
lemma emittedIds_gt (s : Store) (ops : List Op) :
    ∀ i ∈ emittedIds s ops, s.seq < i := by
  induction ops generalizing s with
  | nil => intro i hi; cases hi
  | cons op rest ih =>
    intro i hi
    rw [emittedIds] at hi
    have htail : i ∈ emittedIds (applyOp s op) rest → s.seq < i := fun h =>
      Nat.lt_of_le_of_lt (seq_le_applyOp s op) (ih (applyOp s op) i h)
    rcases List.mem_append.mp hi with hhead | htl
    · cases op with
      | register p now =>
        rcases runInsert_shape s p now with ⟨m, hm⟩ | hok
        · rw [emitOf_eq_of_error hm] at hhead; cases hhead
        · rw [emitOf_eq_of_ok hok] at hhead
          have : i = s.seq + 1 := List.mem_singleton.mp hhead
          rw [this]; exact Nat.lt_succ_self _
      | deleteAthlete id => cases hhead
      | list => cases hhead
    · exact htail htl

/-- The ids handed out during a run are strictly increasing. -/
lemma emittedIds_pairwise (s : Store) (ops : List Op) :
    (emittedIds s ops).Pairwise (· < ·) := by
  induction ops generalizing s with
  | nil => exact List.Pairwise.nil
  | cons op rest ih =>
    rw [emittedIds]
    cases op with
    | register p now =>
      rcases runInsert_shape s p now with ⟨m, hm⟩ | hok
      · rw [emitOf_eq_of_error hm, List.nil_append]
        have h2 : applyOp s (Op.register p now) = s := by
          simp [applyOp, register_of_error hm]
        rw [h2]; exact ih s
      · rw [emitOf_eq_of_ok hok]
        refine List.pairwise_cons.mpr ⟨?_, ih _⟩
        intro j hj
        have h1 := emittedIds_gt (applyOp s (Op.register p now)) rest j hj
        have h2 : applyOp s (Op.register p now) =
            { rows := s.rows ++ [newRowOf s p now], seq := s.seq + 1 } := by
          simp [applyOp, register_of_ok hok]
        rw [h2] at h1
        exact h1
    | deleteAthlete id =>
      rw [emitOf_delete, List.nil_append]
      exact ih (deleteById s id)
    | list =>
      rw [emitOf_list, List.nil_append]
      exact ih s

/-- A row whose optional columns are all null, for concrete test
states. -/
def mkCols (nome cpf : String) : Cols where
  nome_completo := SqlVal.text nome
  cpf := SqlVal.text cpf
  data_nascimento := SqlVal.null
  sexo := SqlVal.null
  whatsapp := SqlVal.null
  peso := SqlVal.null
  altura := SqlVal.null
  tam_kimono := SqlVal.null
  num_calcado := SqlVal.null
  foto_url := SqlVal.null
  lado_dominante := SqlVal.null
  graduacao_faixa := SqlVal.null
  numero_nis := SqlVal.null
  logradouro := SqlVal.null
  numero := SqlVal.null
  bairro := SqlVal.null
  cidade := SqlVal.null
  uf := SqlVal.null
  escola := SqlVal.null
  serie_ano := SqlVal.null
  turno_estudo := SqlVal.null
  restricao_medica := SqlVal.null
  possui_alergias := SqlVal.null
  tipo_sanguineo := SqlVal.null
  contato_emergencia_nome := SqlVal.null
  contato_emergencia_tel := SqlVal.null
  responsavel_legal := SqlVal.null
  responsavel_cpf := SqlVal.null

def mkRow (id : Nat) (nome cpf : String) (termo created : Nat) : Row :=
  { id := id, cols := mkCols nome cpf, termo_aceite := termo, created_at := created }

def emptyStore : Store := { rows := [], seq := 0 }

/-- A two-athlete state: ids 1 and 2, the second created later. -/
def sampleStore : Store :=
  { rows := [mkRow 1 "Ana Silva" "111" 1 10, mkRow 2 "Bruno Costa" "222" 0 20], seq := 2 }

/-- A fully-populated, type-correct register body. -/
def samplePayload : Payload where
  nome_completo := some (JVal.str "Carla Souza")
  cpf := some (JVal.str "333")
  data_nascimento := some (JVal.str "2012-03-04")
  sexo := some (JVal.str "Feminino")
  whatsapp := some (JVal.str "96 99999-0000")
  peso := some (JVal.num 45)
  altura := some (JVal.num 150)
  tam_kimono := some (JVal.str "A1")
  num_calcado := some (JVal.str "36")
  foto_url := some (JVal.str "data:image/jpeg;base64,xyz")
  lado_dominante := some (JVal.str "Destro")
  graduacao_faixa := some (JVal.str "Branca")
  numero_nis := some (JVal.str "123")
  logradouro := some (JVal.str "Rua A")
  numero := some (JVal.str "10")
  bairro := some (JVal.str "Centro")
  cidade := some (JVal.str "Macapa")
  uf := some (JVal.str "AP")
  escola := some (JVal.str "Escola B")
  serie_ano := some (JVal.str "5o ano")
  turno_estudo := some (JVal.str "Manha")
  restricao_medica := some (JVal.str "")
  possui_alergias := some (JVal.str "")
  tipo_sanguineo := some (JVal.str "O+")
  contato_emergencia_nome := some (JVal.str "Maria")
  contato_emergencia_tel := some (JVal.str "96 98888-0000")
  responsavel_legal := some (JVal.str "Jose Souza")
  responsavel_cpf := some (JVal.str "444")
  termo_aceite := some (JVal.bool true)

/-- A request body with every property absent. -/
def emptyPayload : Payload where
  nome_completo := none
  cpf := none
  data_nascimento := none
  sexo := none
  whatsapp := none
  peso := none
  altura := none
  tam_kimono := none
  num_calcado := none
  foto_url := none
  lado_dominante := none
  graduacao_faixa := none
  numero_nis := none
  logradouro := none
  numero := none
  bairro := none
  cidade := none
  uf := none
  escola := none
  serie_ano := none
  turno_estudo := none
  restricao_medica := none
  possui_alergias := none
  tipo_sanguineo := none
  contato_emergencia_nome := none
  contato_emergencia_tel := none
  responsavel_legal := none
  responsavel_cpf := none
  termo_aceite := none

/-- C6: for every register payload in which a required field (full name
or national ID) is absent, the create operation fails — the register
endpoint answers the error envelope with status 500 — and no row is
inserted (the state is unchanged). -/
theorem register_missing_required_fails (s : Store) (p : Payload) (now : Nat)
    (h : p.nome_completo = none ∨ p.cpf = none) :
    (register s p now).1 = s ∧ (register s p now).2.status = 500 ∧
    (register s p now).2.success = false := by
  have hb : allBindable p = false := by
    rcases h with h | h <;> simp [allBindable, h, bindable]
  rw [register_of_error (runInsert_of_bindFail hb)]
  exact ⟨rfl, rfl, rfl⟩

theorem register_missing_required_fails_witness :
    (emptyPayload.nome_completo = none ∨ emptyPayload.cpf = none) ∧
    (register sampleStore emptyPayload 30).1 = sampleStore ∧
    (register sampleStore emptyPayload 30).2.status = 500 ∧
    (register sampleStore emptyPayload 30).2.success = false :=
  ⟨Or.inl rfl, register_missing_required_fails sampleStore emptyPayload 30 (Or.inl rfl)⟩

/-- C8: a store-layer exception is answered with HTTP status 500 and
the body `{success:false, error:<msg>}`, where the error field is the
raised message passed through verbatim, on each of the three handlers
(in this model only the INSERT of the register handler can raise; the
list and delete handlers' catch branches are modelled directly). -/
theorem store_errors_surfaced_verbatim :
    (∀ (s : Store) (p : Payload) (now : Nat) (m : String),
      runInsert s p now = Except.error m →
      register s p now =
        (s, { status := 500, success := false, id := none, error := some m })) ∧
    (∀ m : String, listHandler (Except.error m) = ListResponse.failure 500 false m) ∧
    (∀ (s : Store) (m : String),
      deleteHandler s (Except.error m) =
        (s, { status := 500, success := false, error := some m })) :=
  ⟨fun _ _ _ _ hm => register_of_error hm, fun _ => rfl, fun _ _ => rfl⟩

theorem store_errors_surfaced_verbatim_witness :
    runInsert sampleStore emptyPayload 30 = Except.error bindErrMsg ∧
    register sampleStore emptyPayload 30 =
      (sampleStore,
        { status := 500, success := false, id := none, error := some bindErrMsg }) := by
  have h : runInsert sampleStore emptyPayload 30 = Except.error bindErrMsg := rfl
  exact ⟨h, store_errors_surfaced_verbatim.1 sampleStore emptyPayload 30 bindErrMsg h⟩

/-- C7: the consent flag is coerced to a stored integer: the persisted
`termo_aceite` of the row created by a successful insert is exactly 1
when the submitted value is boolean true, exactly 0 when it is boolean
false, and is always 0 or 1. -/
theorem termo_aceite_stored_as_bit (s : Store) (p : Payload) (now : Nat)
    (s' : Store) (id : Nat) (h : runInsert s p now = Except.ok (s', id)) :
    ∃ r ∈ s'.rows, r.id = id ∧
      (p.termo_aceite = some (JVal.bool true) → r.termo_aceite = 1) ∧
      (p.termo_aceite = some (JVal.bool false) → r.termo_aceite = 0) ∧
      (r.termo_aceite = 0 ∨ r.termo_aceite = 1) := by
  obtain ⟨hs', hid⟩ := runInsert_ok_inv h
  refine ⟨newRowOf s p now, ?_, hid.symm, ?_, ?_, ?_⟩
  · rw [hs']; exact List.mem_append_right _ (List.mem_singleton_self _)
  · intro ht
    show termoStored p = 1
    simp [termoStored, truthy, ht]
  · intro hf
    show termoStored p = 0
    simp [termoStored, truthy, hf]
  · show termoStored p = 0 ∨ termoStored p = 1
    by_cases ht : truthy p.termo_aceite
    · right; simp [termoStored, ht]
    · left; simp [termoStored, ht]

theorem termo_aceite_stored_as_bit_witness :
    runInsert emptyStore samplePayload 5 =
      Except.ok ({ rows := [newRowOf emptyStore samplePayload 5], seq := 1 }, 1) ∧
    ∃ r ∈ ({ rows := [newRowOf emptyStore samplePayload 5], seq := 1 } : Store).rows,
      r.id = 1 ∧
      (samplePayload.termo_aceite = some (JVal.bool true) → r.termo_aceite = 1) ∧
      (samplePayload.termo_aceite = some (JVal.bool false) → r.termo_aceite = 0) ∧
      (r.termo_aceite = 0 ∨ r.termo_aceite = 1) := by
  have h : runInsert emptyStore samplePayload 5 =
      Except.ok ({ rows := [newRowOf emptyStore samplePayload 5], seq := 1 }, 1) := rfl
  exact ⟨h, termo_aceite_stored_as_bit emptyStore samplePayload 5 _ 1 h⟩

/-- C4: `deleteById` removes the row with the given id and no other
row; the endpoint always answers the success envelope, deleting an id
that is not present (in particular a second delete of the same id)
changes no rows. -/
theorem delete_removes_exactly_id (s : Store) (id : Nat) :
    (deleteEndpoint s id).2 = { status := 200, success := true, error := none } ∧
    (∀ r ∈ (deleteEndpoint s id).1.rows, r ∈ s.rows ∧ r.id ≠ id) ∧
    (∀ r ∈ s.rows, r.id ≠ id → r ∈ (deleteEndpoint s id).1.rows) ∧
    ((∀ r ∈ s.rows, r.id ≠ id) → (deleteEndpoint s id).1 = s) ∧
    (deleteEndpoint (deleteEndpoint s id).1 id).1 = (deleteEndpoint s id).1 := by
  refine ⟨rfl, ?_, ?_, ?_, ?_⟩
  · intro r hr
    have h := List.mem_filter.mp hr
    exact ⟨h.1, by simpa using h.2⟩
  · intro r hr hne
    exact List.mem_filter.mpr ⟨hr, by simpa using hne⟩
  · intro hall
    show deleteById s id = s
    unfold deleteById
    rw [List.filter_eq_self.mpr (fun r hr => by simpa using hall r hr)]
  · show deleteById (deleteById s id) id = deleteById s id
    unfold deleteById
    rw [List.filter_eq_self.mpr (fun r hr => (List.mem_filter.mp hr).2)]

theorem delete_removes_exactly_id_witness :
    (deleteEndpoint sampleStore 1).2 =
      { status := 200, success := true, error := none } ∧
    mkRow 2 "Bruno Costa" "222" 0 20 ∈ (deleteEndpoint sampleStore 1).1.rows ∧
    ((∀ r ∈ (deleteEndpoint sampleStore 1).1.rows, r.id ≠ 1) →
      (deleteEndpoint (deleteEndpoint sampleStore 1).1 1).1 = (deleteEndpoint sampleStore 1).1) := by
  refine ⟨(delete_removes_exactly_id sampleStore 1).1, ?_, ?_⟩
  · exact (delete_removes_exactly_id sampleStore 1).2.2.1
      (mkRow 2 "Bruno Costa" "222" 0 20) (by decide) (by decide)
  · intro hall
    exact (delete_removes_exactly_id (deleteEndpoint sampleStore 1).1 1).2.2.2.1 hall

/-- C1: a register payload whose cpf equals the national identifier of
an existing record fails — status 500, `success:false` — and the state
(row count and every existing row) is unchanged. -/
theorem register_duplicate_cpf_fails (s : Store) (p : Payload) (now : Nat)
    (h : ∃ c, p.cpf = some (JVal.str c) ∧ ∃ r ∈ s.rows, r.cols.cpf = SqlVal.text c) :
    (register s p now).1 = s ∧ (register s p now).2.status = 500 ∧
    (register s p now).2.success = false := by
  obtain ⟨c, hc, r0, hr0, hrc⟩ := h
  have herr : ∃ m, runInsert s p now = Except.error m := by
    by_cases hb : allBindable p = true
    · rw [runInsert_eq_of_bind hb]
      by_cases h1 : (colsOf p).nome_completo = SqlVal.null
      · exact ⟨notNullNomeMsg, by rw [if_pos h1]⟩
      · have h2 : ¬((colsOf p).cpf = SqlVal.null) := by
          show ¬(boundOf p.cpf = SqlVal.null)
          rw [hc]
          simp [boundOf]
        have hcc : (colsOf p).cpf = SqlVal.text c := by
          show boundOf p.cpf = SqlVal.text c
          rw [hc]
          rfl
        have h3 : (s.rows.any fun r => decide (r.cols.cpf = (colsOf p).cpf)) = true := by
          rw [List.any_eq_true]
          exact ⟨r0, hr0, by rw [hcc, hrc]; simp⟩
        exact ⟨uniqueCpfMsg, by rw [if_neg h1, if_neg h2, if_pos h3]⟩
    · exact ⟨_, runInsert_of_bindFail (bool_eq_false_of_ne_true hb)⟩
  obtain ⟨m, hm⟩ := herr
  rw [register_of_error hm]
  exact ⟨rfl, rfl, rfl⟩

theorem register_duplicate_cpf_fails_witness :
    (∃ c, ({ samplePayload with cpf := some (JVal.str "111") } : Payload).cpf =
        some (JVal.str c) ∧
      ∃ r ∈ sampleStore.rows, r.cols.cpf = SqlVal.text c) ∧
    (register sampleStore { samplePayload with cpf := some (JVal.str "111") } 30).1 =
      sampleStore ∧
    (register sampleStore { samplePayload with cpf := some (JVal.str "111") } 30).2.status
      = 500 ∧
    (register sampleStore { samplePayload with cpf := some (JVal.str "111") } 30).2.success
      = false := by
  have h : ∃ c, ({ samplePayload with cpf := some (JVal.str "111") } : Payload).cpf =
      some (JVal.str c) ∧
      ∃ r ∈ sampleStore.rows, r.cols.cpf = SqlVal.text c :=
    ⟨"111", rfl, mkRow 1 "Ana Silva" "111" 1 10, by decide, rfl⟩
  exact ⟨h, register_duplicate_cpf_fails sampleStore _ 30 h⟩

/-- C10: the register endpoint fails with status 500 and inserts no row
whenever any of the 28 positionally bound fields other than the consent
flag is absent from the JSON body, optional fields included; only
`termo_aceite` tolerates absence, coerced to stored 0. -/
theorem register_requires_all_bound_fields (s : Store) (p : Payload) (now : Nat) :
    ((p.nome_completo = none ∨ p.cpf = none ∨ p.data_nascimento = none ∨
      p.sexo = none ∨ p.whatsapp = none ∨ p.peso = none ∨ p.altura = none ∨
      p.tam_kimono = none ∨ p.num_calcado = none ∨ p.foto_url = none ∨
      p.lado_dominante = none ∨ p.graduacao_faixa = none ∨ p.numero_nis = none ∨
      p.logradouro = none ∨ p.numero = none ∨ p.bairro = none ∨ p.cidade = none ∨
      p.uf = none ∨ p.escola = none ∨ p.serie_ano = none ∨ p.turno_estudo = none ∨
      p.restricao_medica = none ∨ p.possui_alergias = none ∨ p.tipo_sanguineo = none ∨
      p.contato_emergencia_nome = none ∨ p.contato_emergencia_tel = none ∨
      p.responsavel_legal = none ∨ p.responsavel_cpf = none) →
      (register s p now).1 = s ∧ (register s p now).2.status = 500 ∧
        (register s p now).2.success = false) ∧
    (p.termo_aceite = none → ∀ s' id, runInsert s p now = Except.ok (s', id) →
      ∃ r ∈ s'.rows, r.id = id ∧ r.termo_aceite = 0) := by
  constructor
  · intro h
    have hb : allBindable p = false := by
      rcases h with h|h|h|h|h|h|h|h|h|h|h|h|h|h|h|h|h|h|h|h|h|h|h|h|h|h|h|h <;>
        simp [allBindable, h, bindable]
    rw [register_of_error (runInsert_of_bindFail hb)]
    exact ⟨rfl, rfl, rfl⟩
  · intro ht s' id hok
    obtain ⟨hs', hid⟩ := runInsert_ok_inv hok
    refine ⟨newRowOf s p now, ?_, hid.symm, ?_⟩
    · rw [hs']; exact List.mem_append_right _ (List.mem_singleton_self _)
    · show termoStored p = 0
      simp [termoStored, truthy, ht]

theorem register_requires_all_bound_fields_witness :
    (({ samplePayload with cidade := none } : Payload).cidade = none ∧
      (register emptyStore { samplePayload with cidade := none } 5).1 = emptyStore ∧
      (register emptyStore { samplePayload with cidade := none } 5).2.status = 500 ∧
      (register emptyStore { samplePayload with cidade := none } 5).2.success = false) ∧
    (({ samplePayload with termo_aceite := none } : Payload).termo_aceite = none ∧
      runInsert emptyStore { samplePayload with termo_aceite := none } 5 =
        Except.ok ({ rows := [newRowOf emptyStore
          { samplePayload with termo_aceite := none } 5], seq := 1 }, 1) ∧
      ∃ r ∈ ({ rows := [newRowOf emptyStore
          { samplePayload with termo_aceite := none } 5], seq := 1 } : Store).rows,
        r.id = 1 ∧ r.termo_aceite = 0) := by
  constructor
  · refine ⟨rfl, ?_⟩
    exact (register_requires_all_bound_fields emptyStore
      { samplePayload with cidade := none } 5).1
      (Or.inr (Or.inr (Or.inr (Or.inr (Or.inr (Or.inr (Or.inr (Or.inr (Or.inr (Or.inr
        (Or.inr (Or.inr (Or.inr (Or.inr (Or.inr (Or.inr (Or.inl rfl)))))))))))))))))
  · have hok : runInsert emptyStore { samplePayload with termo_aceite := none } 5 =
        Except.ok ({ rows := [newRowOf emptyStore
          { samplePayload with termo_aceite := none } 5], seq := 1 }, 1) := rfl
    exact ⟨rfl, hok, (register_requires_all_bound_fields emptyStore
      { samplePayload with termo_aceite := none } 5).2 rfl _ 1 hok⟩

/-- C2: `list()` returns all stored records ordered by `createdAt`
descending: the result is a permutation of the stored rows, is sorted
by `created_at` descending, and a record with a strictly later
`created_at` (created after) appears strictly before one with an
earlier `created_at`. -/
theorem listAthletes_newest_first (s : Store) :
    (listAthletes s).Perm s.rows ∧
    (listAthletes s).Sorted createdDesc ∧
    (∀ (i j : Nat) (hi : i < (listAthletes s).length) (hj : j < (listAthletes s).length),
      ((listAthletes s).get ⟨i, hi⟩).created_at <
        ((listAthletes s).get ⟨j, hj⟩).created_at → j < i) := by
  refine ⟨List.perm_insertionSort createdDesc s.rows,
    List.sorted_insertionSort createdDesc s.rows, ?_⟩
  intro i j hi hj hlt
  by_contra hn
  have hij : i ≤ j := Nat.le_of_not_lt hn
  rcases Nat.lt_or_ge i j with hlt2 | hge
  · have hp := (List.sorted_insertionSort createdDesc s.rows).rel_get_of_lt
      (a := ⟨i, hi⟩) (b := ⟨j, hj⟩) hlt2
    exact absurd hlt (Nat.not_lt.mpr hp)
  · have heq : i = j := Nat.le_antisymm hij hge
    subst heq
    exact Nat.lt_irrefl _ hlt

theorem listAthletes_newest_first_witness :
    ((listAthletes sampleStore).get ⟨1, by decide⟩).created_at <
      ((listAthletes sampleStore).get ⟨0, by decide⟩).created_at ∧ (0 : Nat) < 1 :=
  ⟨by decide,
    (listAthletes_newest_first sampleStore).2.2 1 0 (by decide) (by decide) (by decide)⟩

/-- C5: across every sequence of create and delete operations, each
successful create hands out an id strictly greater than every
previously handed-out id (the handed-out ids are strictly increasing,
so an id is never reused after its record is deleted) and strictly
greater than every id already present in the initial state. -/
theorem create_ids_strictly_increase (s : Store) (ops : List Op) (hwf : WF s) :
    (emittedIds s ops).Pairwise (· < ·) ∧
    ∀ i ∈ emittedIds s ops, ∀ r ∈ s.rows, r.id < i := by
  refine ⟨emittedIds_pairwise s ops, ?_⟩
  intro i hi r hr
  exact Nat.lt_of_le_of_lt (hwf.1 r hr) (emittedIds_gt s ops i hi)

theorem create_ids_strictly_increase_witness :
    WF sampleStore ∧
    (emittedIds sampleStore
      [Op.deleteAthlete 2, Op.register samplePayload 30]).Pairwise (· < ·) ∧
    ∀ i ∈ emittedIds sampleStore [Op.deleteAthlete 2, Op.register samplePayload 30],
      ∀ r ∈ sampleStore.rows, r.id < i :=
  ⟨by decide, create_ids_strictly_increase sampleStore
    [Op.deleteAthlete 2, Op.register samplePayload 30] (by decide)⟩

/-- C9: no operation ever modifies an existing record: starting from a
well-formed state, after any sequence of create/list/delete operations
any row carrying the id of an originally present record is that record,
unchanged in every field (there is no update operation). -/
theorem rows_never_modified (s : Store) (r : Row) (ops : List Op)
    (hwf : WF s) (hr : r ∈ s.rows) :
    ∀ r' ∈ (applyOps s ops).rows, r'.id = r.id → r' = r := by
  intro r' hr' hid
  have hle : r'.id ≤ s.seq := by rw [hid]; exact hwf.1 r hr
  have hmem : r' ∈ s.rows := mem_of_applyOps_mem hr' hle
  exact eq_of_mem_of_id_eq hwf.2 hr hmem hid

theorem rows_never_modified_witness :
    WF sampleStore ∧ mkRow 1 "Ana Silva" "111" 1 10 ∈ sampleStore.rows ∧
    ∀ r' ∈ (applyOps sampleStore
        [Op.register samplePayload 30, Op.list, Op.deleteAthlete 2]).rows,
      r'.id = (mkRow 1 "Ana Silva" "111" 1 10).id →
      r' = mkRow 1 "Ana Silva" "111" 1 10 :=
  ⟨by decide, by decide,
    rows_never_modified sampleStore (mkRow 1 "Ana Silva" "111" 1 10)
      [Op.register samplePayload 30, Op.list, Op.deleteAthlete 2]
      (by decide) (by decide)⟩

/-- C3: for every valid payload with a fresh national identifier,
create succeeds and the record obtained via list has every field equal
to the corresponding input field except the server-assigned id and
createdAt, and the consent flag round-trips as the boolean value that
was submitted (stored 1 for true, 0 for false). -/
theorem register_list_roundtrip (s : Store) (p : Payload) (now : Nat)
    (hv : ValidPayload s p) :
    (register s p now).2.success = true ∧
    ∃ r ∈ listAthletes (register s p now).1,
      (register s p now).2.id = some r.id ∧ r.created_at = now ∧
      p.nome_completo = some (jOf r.cols.nome_completo) ∧
      p.cpf = some (jOf r.cols.cpf) ∧
      p.data_nascimento = some (jOf r.cols.data_nascimento) ∧
      p.sexo = some (jOf r.cols.sexo) ∧
      p.whatsapp = some (jOf r.cols.whatsapp) ∧
      p.peso = some (jOf r.cols.peso) ∧
      p.altura = some (jOf r.cols.altura) ∧
      p.tam_kimono = some (jOf r.cols.tam_kimono) ∧
      p.num_calcado = some (jOf r.cols.num_calcado) ∧
      p.foto_url = some (jOf r.cols.foto_url) ∧
      p.lado_dominante = some (jOf r.cols.lado_dominante) ∧
      p.graduacao_faixa = some (jOf r.cols.graduacao_faixa) ∧
      p.numero_nis = some (jOf r.cols.numero_nis) ∧
      p.logradouro = some (jOf r.cols.logradouro) ∧
      p.numero = some (jOf r.cols.numero) ∧
      p.bairro = some (jOf r.cols.bairro) ∧
      p.cidade = some (jOf r.cols.cidade) ∧
      p.uf = some (jOf r.cols.uf) ∧
      p.escola = some (jOf r.cols.escola) ∧
      p.serie_ano = some (jOf r.cols.serie_ano) ∧
      p.turno_estudo = some (jOf r.cols.turno_estudo) ∧
      p.restricao_medica = some (jOf r.cols.restricao_medica) ∧
      p.possui_alergias = some (jOf r.cols.possui_alergias) ∧
      p.tipo_sanguineo = some (jOf r.cols.tipo_sanguineo) ∧
      p.contato_emergencia_nome = some (jOf r.cols.contato_emergencia_nome) ∧
      p.contato_emergencia_tel = some (jOf r.cols.contato_emergencia_tel) ∧
      p.responsavel_legal = some (jOf r.cols.responsavel_legal) ∧
      p.responsavel_cpf = some (jOf r.cols.responsavel_cpf) ∧
      ((p.termo_aceite = some (JVal.bool true) ∧ r.termo_aceite = 1) ∨
       (p.termo_aceite = some (JVal.bool false) ∧ r.termo_aceite = 0)) := by
  have hrun := @runInsert_of_valid s p now hv
  have hreg := register_of_ok hrun
  obtain ⟨h1, h2, h3, h4, h5, h6, h7, h8, h9, h10, h11, h12, h13, h14, h15, h16,
    h17, h18, h19, h20, h21, h22, h23, h24, h25, h26, h27, h28, hbool, hfresh⟩ := hv
  rw [hreg]
  refine ⟨rfl, newRowOf s p now,
    (List.perm_insertionSort createdDesc _).mem_iff.mpr
      (List.mem_append_right _ (List.mem_singleton_self _)),
    rfl, rfl,
    roundtrip_of_isText h1, roundtrip_of_isText h2,
    roundtrip_of_isTextOrNull h3, roundtrip_of_isTextOrNull h4,
    roundtrip_of_isTextOrNull h5, roundtrip_of_isRealOrNull h6,
    roundtrip_of_isRealOrNull h7, roundtrip_of_isTextOrNull h8,
    roundtrip_of_isTextOrNull h9, roundtrip_of_isTextOrNull h10,
    roundtrip_of_isTextOrNull h11, roundtrip_of_isTextOrNull h12,
    roundtrip_of_isTextOrNull h13, roundtrip_of_isTextOrNull h14,
    roundtrip_of_isTextOrNull h15, roundtrip_of_isTextOrNull h16,
    roundtrip_of_isTextOrNull h17, roundtrip_of_isTextOrNull h18,
    roundtrip_of_isTextOrNull h19, roundtrip_of_isTextOrNull h20,
    roundtrip_of_isTextOrNull h21, roundtrip_of_isTextOrNull h22,
    roundtrip_of_isTextOrNull h23, roundtrip_of_isTextOrNull h24,
    roundtrip_of_isTextOrNull h25, roundtrip_of_isTextOrNull h26,
    roundtrip_of_isTextOrNull h27, roundtrip_of_isTextOrNull h28, ?_⟩
  obtain ⟨b, hbeq⟩ := exists_bool_of_isBoolVal hbool
  cases b with
  | true =>
    left
    exact ⟨hbeq, by show termoStored p = 1; simp [termoStored, truthy, hbeq]⟩
  | false =>
    right
    exact ⟨hbeq, by show termoStored p = 0; simp [termoStored, truthy, hbeq]⟩

theorem register_list_roundtrip_witness :
    ValidPayload emptyStore samplePayload ∧
    (register emptyStore samplePayload 5).2.success = true :=
  ⟨by decide, (register_list_roundtrip emptyStore samplePayload 5 (by decide)).1⟩
